import Mathlib

/-!
# Verification of the parametric geometry / workflow-sequencing layer

A shallow embedding of the validation, naming and geometry-generation logic of
`simulation_loader.py` (classes `SimulationInit`, `Analysis`).  All calls into
the external CAD/solver backend (`self.maxwell_3d.…`) are side effects outside
the recorded session state and are not modelled; every embedded operation
returns the recorded state after the call together with the Python-level
result: `Except PyErr α` models a normal return versus a raised exception.

Numeric parameters (Python floats used only with `+ - * / <= >=`) are embedded
as `ℚ`; the source performs no inexact float operation on the values the claims
speak about.
-/

/-- A raised Python exception, by class and message. `unboundLocal n` models
an `UnboundLocalError`/`NameError` on reading the never-assigned local `n`. -/
inductive PyErr where
  | typeErr (msg : String)
  | valueErr (msg : String)
  | unboundLocal (var : String)
deriving Repr, DecidableEq

deriving instance DecidableEq for Except

/-- A Python argument that the source inspects with `type(x) == float` /
`type(x) == str`: an `int`, a `float` or a `str` value. -/
inductive PyArg where
  | int (i : ℤ)
  | float (q : ℚ)
  | str (s : String)
deriving Repr, DecidableEq

def PyArg.isFloat : PyArg → Bool
  | .float _ => true
  | _ => false

def PyArg.isStr : PyArg → Bool
  | .str _ => true
  | _ => false

def PyArg.strVal : PyArg → String
  | .str s => s
  | _ => ""

/-- Python string formatting `f"{q}"` of a float value, abstracted as the
decimal rendering of the embedded rational. -/
def pyFormatFloat (q : ℚ) : String := toString q

/-- The recorded state of a `SimulationInit` session: the fields set in
`SimulationInit.__init__` that later validations read or write.
`variable_names` is, as in the source, a *list of single-key mappings*
`{name: value}`, each mapping embedded as an association list. -/
structure SimState where
  solution_type : String
  /-- `maxwell_3d is not None`, i.e. `simulation_init()` has run. -/
  maxwell_init : Bool
  coil_names : List String
  cylinder_names : List String
  box_names : List String
  /-- one entry per created coil: the cross-section object names returned by
  the backend query at the end of each coil creator (backend-determined). -/
  coil_for_assign : List (List String)
  crack_counter : ℕ
  specimen_name : List String
  boundary : List String
  variable_names : List (List (String × String))
deriving Repr, DecidableEq

/-- `SimulationInit.__init__`: the fresh session state. -/
def simInit (solver_type : String) : SimState :=
  { solution_type := solver_type
    maxwell_init := false
    coil_names := []
    cylinder_names := []
    box_names := []
    coil_for_assign := []
    crack_counter := 0
    specimen_name := []
    boundary := []
    variable_names := [[("x", "0_mm")], [("y", "0_mm")], [("z", "0_mm")]] }

/-- `simulation_init()`: connects the backend (`maxwell_3d` becomes non-None). -/
def simulation_ready (solver_type : String) : SimState :=
  { simInit solver_type with maxwell_init := true }

/-- Python `key in d` for a dict `d`: membership among the keys. -/
def dictHasKey (d : List (String × String)) (k : String) : Bool :=
  d.any (fun p => p.1 == k)

/-- `any(name in var_dict for var_dict in self._variable_names)`: the name is
a key of some of the single-key mappings (the membership test used by
`ec_type_assign_excitation` and `ec_analysis`). -/
def varDeclared (l : List (List (String × String))) (name : String) : Bool :=
  l.any (fun d => dictHasKey d name)

/-- Python `x in l` where `x` is a `str` and `l` a list of dicts: the `in`
operator compares `x == d` against each element, and a `str` never compares
equal to a `dict`, so the test is `False` for every list.  This is the
membership test `variable_name not in self.sim_init._variable_names` performs
in `Analysis.optimetrics_setup`. -/
def strMemDictList (_l : List (List (String × String))) (_s : String) : Bool :=
  false

/-- Python `l == 0` where `l` is a `list`: a list never compares equal to an
int, so the test is `False`.  This is what `self._setup_names == 0` and
`self.sim_init._variable_names == 0` evaluate to in `optimetrics_setup`. -/
def pyListEqZero {α : Type} (_l : List α) : Bool :=
  false

/-- `SimulationInit.create_project_variable`.  `variable_value_str` stands for
`str(variable_value)`.  Mirrors the source's check order: the duplicate-name
test `all(variable_name in var_dict for var_dict in self._variable_names)`,
then the `maxwell_3d is None` test, then the append of the single-key mapping
`{variable_name: str(variable_value) + "_" + variable_unit}`. -/
def create_project_variable (s : SimState) (variable_name : String)
    (variable_value_str : String) (variable_unit : String) :
    SimState × Except PyErr Bool :=
  if s.variable_names.all (fun d => dictHasKey d variable_name) then
    (s, .error (.valueErr ("variable name: '" ++ variable_name ++
      "' already existed. Please using another variable name.")))
  else if !s.maxwell_init then
    (s, .error (.valueErr
      "Maxwell 3D instance not initialized. Call simulation_init() first."))
  else
    ({ s with variable_names :=
        s.variable_names ++ [[(variable_name,
          variable_value_str ++ "_" ++ variable_unit)]] },
     .ok true)

/-- `SimulationInit.region_assign`: boundary size is a number or a list of six
values; on success `"Region"` is appended to `self._boundary` (the radiation
boundary of EddyCurrent mode is a backend effect only). -/
inductive BoundSize where
  | num (q : ℚ)
  | list (l : List ℚ)
deriving Repr, DecidableEq

def region_assign (s : SimState) (boundaries_size : BoundSize) :
    SimState × Except PyErr Bool :=
  match boundaries_size with
  | .num _ =>
      ({ s with boundary := s.boundary ++ ["Region"] }, .ok true)
  | .list l =>
      if l.length ≠ 6 then
        (s, .error (.valueErr "Please set the correct boundary size"))
      else
        ({ s with boundary := s.boundary ++ ["Region"] }, .ok true)

/-- `SimulationInit.create_specimen` (validation and registry part). -/
def create_specimen (s : SimState) (specimen_name : String) :
    SimState × Except PyErr Bool :=
  if !s.maxwell_init then
    (s, .error (.valueErr
      "Maxwell 3D instance not initialized. Call simulation_init() first."))
  else if s.specimen_name.contains specimen_name then
    (s, .error (.valueErr ("specimen name: '" ++ specimen_name ++
      "' already existed. Please using another name.")))
  else
    ({ s with specimen_name := s.specimen_name ++ [specimen_name] }, .ok true)

/-- `SimulationInit.specimen_with_crack` (validation, naming and counter).
The source returns `True`; the embedding additionally returns the crack name
`f"{specimen_name}_crack_{self._crack_counter + 1}"` that is handed to the
backend `create_box`/`subtract` calls, since that name is the observable the
naming claims are about. -/
def specimen_with_crack (s : SimState) (specimen_name : String) :
    SimState × Except PyErr String :=
  if !s.maxwell_init then
    (s, .error (.valueErr
      "Maxwell 3D instance not initialized. Call simulation_init() first."))
  else if !(s.specimen_name.contains specimen_name) then
    (s, .error (.valueErr ("specimen: '" ++ specimen_name ++
      "' not exist, choose existed one.")))
  else
    ({ s with crack_counter := s.crack_counter + 1 },
     .ok (specimen_name ++ "_crack_" ++ toString (s.crack_counter + 1)))

/-- The characters of a name before its first `_` (all of them when there is
no `_`). -/
def takeUntilUnderscore : List Char → List Char
  | [] => []
  | c :: cs => if c = '_' then [] else c :: takeUntilUnderscore cs

/-- `obj[0].split('_', 1)[0]`: the part of a name before its first `_`. -/
def pySplitFirst (s : String) : String :=
  ⟨takeUntilUnderscore s.data⟩

/-- The list comprehension
`[obj[0] for obj in self._coil_for_assign if obj[0].split('_', 1)[0] == coil_name]`
(each registered entry is the non-empty section-object list of one coil). -/
def targetObjects (coil_for_assign : List (List String)) (coil_name : String) :
    List String :=
  (coil_for_assign.map (fun l => l.headD "")).filter
    (fun o => pySplitFirst o == coil_name)

/-- `SimulationInit.transient_type_assign_excitation` (validation part; the
winding/coil assignment itself is a backend effect). -/
def transient_type_assign_excitation (s : SimState) (coil_name : String) :
    SimState × Except PyErr Bool :=
  if s.solution_type ≠ "Transient" then
    (s, .error (.valueErr ("Solver type should be 'Transient', but got '" ++
      s.solution_type ++ "'.")))
  else if (targetObjects s.coil_for_assign coil_name).isEmpty then
    (s, .error (.valueErr ("Coil '" ++ coil_name ++
      "' not found. Please recheck the coil name")))
  else
    (s, .ok true)

/-- The `amplitude_str` dispatch chain of `ec_type_assign_excitation`:
`none` models the fall-through case in which the local stays unassigned
(e.g. an `int` amplitude, for which `type(amplitude) == float` is `False`). -/
def ec_amplitude_str (excitation_type : String) (amplitude : PyArg) :
    Option String :=
  if excitation_type == "Voltage" && amplitude.isFloat then
    match amplitude with
    | .float q => some (pyFormatFloat q ++ " V")
    | _ => none
  else if excitation_type == "Voltage" && amplitude.isStr then
    some ("$" ++ amplitude.strVal)
  else if excitation_type == "Current" && amplitude.isFloat then
    match amplitude with
    | .float q => some (pyFormatFloat q ++ " A")
    | _ => none
  else if excitation_type == "Current" && amplitude.isStr then
    some ("$" ++ amplitude.strVal)
  else
    none

/-- The `phase_str` dispatch of `ec_type_assign_excitation`. -/
def ec_phase_str (phase : PyArg) : Option String :=
  match phase with
  | .float q => some (pyFormatFloat q ++ " deg")
  | .str s => some ("$" ++ s)
  | .int _ => none

/-- `SimulationInit.ec_type_assign_excitation`.  On success returns
`some (amplitude_str, phase_str)` when a winding was assigned (excitation
type `Voltage` or `Current`), `none` for an unrecognized excitation type
(the source then assigns no winding but still returns `True`).  Reading an
unassigned `amplitude_str`/`phase_str` at the `assign_winding` call raises
`UnboundLocalError` — `assign_winding`'s arguments are evaluated left to
right, so `amplitude_str` is read first. -/
def ec_type_assign_excitation (s : SimState) (coil_name : String)
    (excitation_type : String) (amplitude phase : PyArg) :
    SimState × Except PyErr (Option (String × String)) :=
  if s.solution_type ≠ "EddyCurrent" then
    (s, .error (.valueErr ("Solver type should be 'EddyCurrent', but got '" ++
      s.solution_type ++ "'.")))
  else if amplitude.isStr && !(varDeclared s.variable_names amplitude.strVal) then
    (s, .error (.valueErr ("variable '" ++ amplitude.strVal ++
      "' not found. Please recheck the variable name")))
  else if phase.isStr && !(varDeclared s.variable_names phase.strVal) then
    (s, .error (.valueErr ("variable '" ++ phase.strVal ++
      "' not found. Please recheck the variable name")))
  else if (targetObjects s.coil_for_assign coil_name).isEmpty then
    (s, .error (.valueErr ("Coil '" ++ coil_name ++
      "' not found. Please recheck the coil name")))
  else if excitation_type == "Voltage" || excitation_type == "Current" then
    match ec_amplitude_str excitation_type amplitude with
    | none => (s, .error (.unboundLocal "amplitude_str"))
    | some amp =>
        match ec_phase_str phase with
        | none => (s, .error (.unboundLocal "phase_str"))
        | some ph => (s, .ok (some (amp, ph)))
  else
    (s, .ok none)

/-- `Analysis.transient_analysis` (validation and setup-name registry; the
setup creation, project save, `analyze` run and the `pre_stop` process exit
are backend/process effects).  The first component of the result is
`self._setup_names` *after* the call: note that the source appends
`setup_name` before validating the numeric constraints, so a numerically
rejected call still mutates the registry. -/
def transient_analysis (sim : SimState) (setup_names : List String)
    (setup_name : String) (stop_time time_step : ℚ) (n_steps : ℤ)
    (steps_from steps_to : ℚ) : List String × Except PyErr Bool :=
  if !(sim.boundary.contains "Region") then
    (setup_names, .error (.valueErr "mesh or boundary not assigned, please recheck"))
  else if sim.solution_type ≠ "Transient" then
    (setup_names, .error (.valueErr ("Solver type must be 'Transient', but got '" ++
      sim.solution_type ++ "'.")))
  else if setup_names.contains setup_name then
    (setup_names, .error (.valueErr ("setup name: '" ++ setup_name ++
      "' already existed. Please using another name.")))
  else
    let registered := setup_names ++ [setup_name]
    if stop_time ≤ time_step then
      (registered, .error (.valueErr "The stop time must be greater than the time step."))
    else if time_step ≤ 0 then
      (registered, .error (.valueErr "The time step must be greater than 0."))
    else if n_steps ≤ 0 then
      (registered, .error (.valueErr "The n_steps must be greater than 0."))
    else if steps_from ≥ steps_to then
      (registered, .error (.valueErr "The steps_from must be less than steps_to."))
    else if steps_from < 0 then
      (registered, .error (.valueErr "The steps_from must be greater than 0."))
    else
      (registered, .ok true)

/-- `Analysis.ec_analysis` (validation and setup-name registry).  An `int`
frequency falls through both `type(frequency) == float` and
`type(frequency) == str`, leaving the local `Freq` unassigned when it is read
to fill the setup properties. -/
def ec_analysis (sim : SimState) (setup_names : List String)
    (setup_name : String) (frequency : PyArg) : List String × Except PyErr Bool :=
  if !(sim.boundary.contains "Region") then
    (setup_names, .error (.valueErr "mesh or boundary not assigned, please recheck"))
  else if sim.solution_type ≠ "EddyCurrent" then
    (setup_names, .error (.valueErr ("Solver type must be 'EddyCurrent', but got '" ++
      sim.solution_type ++ "'.")))
  else if setup_names.contains setup_name then
    (setup_names, .error (.valueErr ("setup name: '" ++ setup_name ++
      "' already existed. Please using another name.")))
  else if frequency.isStr && !(varDeclared sim.variable_names frequency.strVal) then
    (setup_names, .error (.valueErr ("variable '" ++ frequency.strVal ++
      "' not found. Please recheck the variable name")))
  else
    let registered := setup_names ++ [setup_name]
    match frequency with
    | .float _ => (registered, .ok true)
    | .str _ => (registered, .ok true)
    | .int _ => (registered, .error (.unboundLocal "Freq"))

/-- `Analysis.optimetrics_setup` (validation part, `file_name is None` branch).
The guards mirror the source:
`self._setup_names == 0` and `self.sim_init._variable_names == 0` compare a
list against an int (always `False`), and
`variable_name not in self.sim_init._variable_names` tests a `str` for
membership in a list of dicts (always `True`), so every call that reaches the
variable check raises the not-found `ValueError`; the branch building the
sweep (`m3d.parametrics.add … return True`) is kept for completeness. -/
def optimetrics_setup (sim : SimState) (setup_names : List String)
    (variable_name : String) : SimState × Except PyErr Bool :=
  if !(sim.boundary.contains "Region") then
    (sim, .error (.valueErr "mesh or boundary not assigned, please recheck"))
  else if pyListEqZero setup_names then
    (sim, .error (.valueErr "Please create a setup first."))
  else if pyListEqZero sim.variable_names then
    (sim, .error (.valueErr "Please create a variable first."))
  else if !(strMemDictList sim.variable_names variable_name) then
    (sim, .error (.valueErr ("Variable name: '" ++ variable_name ++
      "' not found. Please recheck the variable name.")))
  else
    (sim, .ok true)

/-! ## Coil path generators -/

/-- The sample grid of `create_spiral_coil`:
`theta = np.linspace(0, 2*np.pi*num_turns, 50*num_turns)`, so
`theta_k = 2*pi*num_turns*k/(50*num_turns - 1)`.  The embedding records the
angle in units of `pi`: `spiral_theta_over_pi n k = theta_k / pi`. -/
def spiral_theta_over_pi (num_turns k : ℕ) : ℚ :=
  2 * num_turns * k / (50 * (num_turns : ℚ) - 1)

/-- The radius of the `k`-th sample of `create_spiral_coil`:
`coil_inner_radius + spacing * theta / (2 * pi)`; the factors of `pi` cancel
against the grid, leaving an exact rational. -/
def spiral_radius (inner spacing : ℚ) (num_turns k : ℕ) : ℚ :=
  inner + spacing * spiral_theta_over_pi num_turns k / 2

/-- `SimulationInit.create_spiral_coil` (validation, registry, and the polar
data of the generated path).  The source computes the Cartesian samples
`x_k = r_k * cos(theta_k)`, `y_k = r_k * sin(theta_k)`; the embedding returns
the equivalent polar samples `(theta_k / pi, r_k)` — the trigonometric map to
Cartesian coordinates is stated over `ℝ` in the theorems.  Check order as in
the source: name separator, `spacing <= wire_width`, backend initialized,
duplicate name. -/
def create_spiral_coil (s : SimState) (name : String) (num_turns : ℕ)
    (wire_width spacing inner : ℚ) :
    SimState × Except PyErr (List (ℚ × ℚ)) :=
  if name.data.contains '_' then
    (s, .error (.valueErr "The name of the coil should not contain an underscore."))
  else if spacing ≤ wire_width then
    (s, .error (.valueErr "The spacing must be greater than the wire width."))
  else if !s.maxwell_init then
    (s, .error (.valueErr
      "Maxwell 3D instance not initialized. Call simulation_init() first."))
  else if s.coil_names.contains name then
    (s, .error (.valueErr ("coil name: '" ++ name ++
      "' already existed. Please using another name.")))
  else
    ({ s with coil_names := s.coil_names ++ [name] },
     .ok ((List.range (50 * num_turns)).map
        (fun k => (spiral_theta_over_pi num_turns k,
                   spiral_radius inner spacing num_turns k))))

/-- The loop of `create_rectangle_coil` building the square-spiral vertex
lists: starting from `x = [0]`, `y = [0]`, `x_length = ix`, `y_length = iy`,
each of the `n` iterations appends four vertices (`x[-1]` is the most recently
appended coordinate) and grows each arm length by `2 * step_size`.  The state
is `(x, y, x_length, y_length)`. -/
def rec_coil_xy (ix iy s : ℚ) : ℕ → List ℚ × List ℚ × ℚ × ℚ
  | 0 => ([0], [0], ix, iy)
  | n + 1 =>
    let st := rec_coil_xy ix iy s n
    let x := st.1
    let y := st.2.1
    let xl := st.2.2.1
    let yl := st.2.2.2
    let x1 := x ++ [x.getLastD 0 + xl]
    let y1 := y ++ [y.getLastD 0]
    let xl1 := xl + s
    let x2 := x1 ++ [x1.getLastD 0]
    let y2 := y1 ++ [y1.getLastD 0 + yl]
    let yl1 := yl + s
    let x3 := x2 ++ [x2.getLastD 0 - xl1]
    let y3 := y2 ++ [y2.getLastD 0]
    let xl2 := xl1 + s
    let x4 := x3 ++ [x3.getLastD 0]
    let y4 := y3 ++ [y3.getLastD 0 - yl1]
    let yl2 := yl1 + s
    (x4, y4, xl2, yl2)

/-- The full polyline of `create_rectangle_coil`: the spiral vertices followed
by the closing vertex `x.append(x[0] + wire_height); y.append(y[-1])`; the
`z` coordinates are identically `0` and are dropped.  `h` is `wire_height`. -/
def rec_coil_path (ix iy s h : ℚ) (n : ℕ) : List (ℚ × ℚ) :=
  let st := rec_coil_xy ix iy s n
  let x := st.1
  let y := st.2.1
  let x5 := x ++ [x.headD 0 + h]
  let y5 := y ++ [y.getLastD 0]
  x5.zip y5

/-- `SimulationInit.create_rectangle_coil` (validation, registry and path).
Check order as in the source: name separator, backend initialized, duplicate
name, `step_size <= wire_width`; then the name is registered and the polyline
built. -/
def create_rectangle_coil (s : SimState) (name : String) (num_turns : ℕ)
    (step_size wire_height wire_width ix iy : ℚ) :
    SimState × Except PyErr (List (ℚ × ℚ)) :=
  if name.data.contains '_' then
    (s, .error (.valueErr "The name of the coil should not contain an underscore."))
  else if !s.maxwell_init then
    (s, .error (.valueErr
      "Maxwell 3D instance not initialized. Call simulation_init() first."))
  else if s.coil_names.contains name then
    (s, .error (.valueErr ("coil name: '" ++ name ++
      "' already existed. Please using another name.")))
  else if step_size ≤ wire_width then
    (s, .error (.valueErr "The step size must be greater than the wire width."))
  else
    ({ s with coil_names := s.coil_names ++ [name] },
     .ok (rec_coil_path ix iy step_size wire_height num_turns))

/-- Closed form of the square-spiral vertices.  Vertex `0` is the origin; for
`k = 4*i + r + 1` (`r < 4`) the vertex is the `r`-th corner of turn `i`:
with arm lengths `ix + 2*i*s` and `iy + 2*i*s` the turn runs
right, up, left, down from its start `(-i*s, -i*s)`. -/
def spiralPt (ix iy s : ℚ) (k : ℕ) : ℚ × ℚ :=
  if k = 0 then (0, 0)
  else
    let i : ℕ := (k - 1) / 4
    let r : ℕ := (k - 1) % 4
    if r = 0 then (ix + i * s, -(i * s))
    else if r = 1 then (ix + i * s, iy + i * s)
    else if r = 2 then (-((i + 1 : ℕ) * s), iy + i * s)
    else (-((i + 1 : ℕ) * s), -((i + 1 : ℕ) * s))

/-- Closed form of the whole polyline of `rec_coil_path` (`4*n + 2` vertices):
the spiral vertices, then the closing vertex `(h, -(n*s))`. -/
def pathPt (ix iy s h : ℚ) (n k : ℕ) : ℚ × ℚ :=
  if k = 4 * n + 1 then (h, -((n : ℚ) * s)) else spiralPt ix iy s k

/-- A point `r` lies on the closed segment from `p` to `q`. -/
def onSeg (p q r : ℚ × ℚ) : Prop :=
  ∃ t : ℚ, 0 ≤ t ∧ t ≤ 1 ∧
    r.1 = p.1 + t * (q.1 - p.1) ∧ r.2 = p.2 + t * (q.2 - p.2)

/-- Taxicab length of the `k`-th segment of the polyline `f` (the segments of
`rec_coil_path` are axis-aligned, so this is the Euclidean length). -/
def segLen (f : ℕ → ℚ × ℚ) (k : ℕ) : ℚ :=
  |(f (k + 1)).1 - (f k).1| + |(f (k + 1)).2 - (f k).2|

/-! ## Session states used by the concrete claim instances -/

/-- The session of the `optimetrics_setup` docstring example: EddyCurrent
solver, initialized, project variable `MyVariable` declared, region
assigned, one analysis setup `MySetup` created. -/
def optimetricsExampleSim : SimState :=
  (region_assign
    ((create_project_variable (simulation_ready "EddyCurrent") "MyVariable"
        "0.1" "mm").1)
    (.num 100)).1

/-- A Transient session with its region assigned. -/
def transientReadySim : SimState :=
  (region_assign (simulation_ready "Transient") (.num 100)).1

/-- An EddyCurrent session holding the section objects registered for coil
`SpirCoil` (as the backend query after `create_spiral_coil` returns them),
and the declared project variable `amp`. -/
def ecCoilSim : SimState :=
  { simulation_ready "EddyCurrent" with
      coil_names := ["SpirCoil"]
      coil_for_assign := [["SpirCoil_Section1", "SpirCoil_Section2"]]
      variable_names := [[("x", "0_mm")], [("y", "0_mm")], [("z", "0_mm")],
        [("amp", "10_")]] }

/-- A session with two specimens `SpecA`, `SpecB` and no cracks yet. -/
def twoSpecimenSim : SimState :=
  (create_specimen
    ((create_specimen (simulation_ready "Transient") "SpecA").1) "SpecB").1

/-! ## Closed form of the square-spiral polyline -/

theorem spiralPt_S (ix iy s : ℚ) (a : ℕ) :
    spiralPt ix iy s (4 * a) = (-((a : ℚ) * s), -((a : ℚ) * s)) := by
  cases a with
  | zero => simp [spiralPt]
  | succ b =>
      have h0 : 4 * (b + 1) ≠ 0 := by omega
      have h1 : 4 * (b + 1) - 1 = 4 * b + 3 := by omega
      have h2 : (4 * b + 3) / 4 = b := by omega
      have h3 : (4 * b + 3) % 4 = 3 := by omega
      simp only [spiralPt, h0, if_false, h1, h2, h3]
      norm_num

theorem spiralPt_A (ix iy s : ℚ) (a : ℕ) :
    spiralPt ix iy s (4 * a + 1) = (ix + (a : ℚ) * s, -((a : ℚ) * s)) := by
  have h0 : 4 * a + 1 ≠ 0 := by omega
  have h1 : 4 * a + 1 - 1 = 4 * a := by omega
  have h2 : 4 * a / 4 = a := by omega
  have h3 : 4 * a % 4 = 0 := by omega
  simp [spiralPt, h0, h1, h2, h3]

theorem spiralPt_B (ix iy s : ℚ) (a : ℕ) :
    spiralPt ix iy s (4 * a + 2) = (ix + (a : ℚ) * s, iy + (a : ℚ) * s) := by
  have h0 : 4 * a + 2 ≠ 0 := by omega
  have h1 : 4 * a + 2 - 1 = 4 * a + 1 := by omega
  have h2 : (4 * a + 1) / 4 = a := by omega
  have h3 : (4 * a + 1) % 4 = 1 := by omega
  simp [spiralPt, h0, h1, h2, h3]

theorem spiralPt_C (ix iy s : ℚ) (a : ℕ) :
    spiralPt ix iy s (4 * a + 3) = (-(((a : ℚ) + 1) * s), iy + (a : ℚ) * s) := by
  have h0 : 4 * a + 3 ≠ 0 := by omega
  have h1 : 4 * a + 3 - 1 = 4 * a + 2 := by omega
  have h2 : (4 * a + 2) / 4 = a := by omega
  have h3 : (4 * a + 2) % 4 = 2 := by omega
  simp [spiralPt, h0, h1, h2, h3]

/-- Closed form of the loop state of `create_rectangle_coil` after `n`
iterations: the vertex lists are `spiralPt` sampled on `0 … 4*n`, and the arm
lengths have grown to `ix + 2*n*s` and `iy + 2*n*s`. -/
theorem rec_coil_xy_eq (ix iy s : ℚ) (n : ℕ) :
    rec_coil_xy ix iy s n =
      ((List.range (4 * n + 1)).map (fun k => (spiralPt ix iy s k).1),
       (List.range (4 * n + 1)).map (fun k => (spiralPt ix iy s k).2),
       ix + 2 * (n : ℚ) * s, iy + 2 * (n : ℚ) * s) := by
  induction n with
  | zero => simp [rec_coil_xy, spiralPt, List.range_succ]
  | succ m ih =>
      have hS := spiralPt_S ix iy s m
      have hA := spiralPt_A ix iy s m
      have hB2 : spiralPt ix iy s (4 * m + 1 + 1)
          = (ix + (m : ℚ) * s, iy + (m : ℚ) * s) := by
        rw [show 4 * m + 1 + 1 = 4 * m + 2 from by omega]
        exact spiralPt_B ix iy s m
      have hC3 : spiralPt ix iy s (4 * m + 1 + 1 + 1)
          = (-(((m : ℚ) + 1) * s), iy + (m : ℚ) * s) := by
        rw [show 4 * m + 1 + 1 + 1 = 4 * m + 3 from by omega]
        exact spiralPt_C ix iy s m
      have hS4 : spiralPt ix iy s (4 * m + 1 + 1 + 1 + 1)
          = (-(((m : ℚ) + 1) * s), -(((m : ℚ) + 1) * s)) := by
        rw [show 4 * m + 1 + 1 + 1 + 1 = 4 * (m + 1) from by omega, spiralPt_S]
        push_cast
        ring_nf
      have hrange : 4 * (m + 1) + 1 = 4 * m + 1 + 1 + 1 + 1 + 1 := by omega
      simp only [rec_coil_xy, ih]
      rw [hrange]
      conv_rhs =>
        rw [List.range_succ]
        rw [List.range_succ]
        rw [List.range_succ]
        rw [List.range_succ]
      simp [hS, hA, hB2, hC3, hS4, List.range_succ]
      refine ⟨⟨?_, ?_⟩, ⟨?_, ?_⟩, ?_, ?_⟩ <;> ring

theorem getLastD_map_range {α : Type} (f : ℕ → α) (m : ℕ) (d : α) :
    ((List.range (m + 1)).map f).getLastD d = f m := by
  simp [List.range_succ]

/-- Closed form of the full polyline built by `create_rectangle_coil`:
`4*n + 2` vertices given by `pathPt`. -/
theorem rec_coil_path_eq (ix iy s h : ℚ) (n : ℕ) :
    rec_coil_path ix iy s h n
      = (List.range (4 * n + 2)).map (pathPt ix iy s h n) := by
  have hhead : ((List.range (4 * n + 1)).map
      (fun k => (spiralPt ix iy s k).1)).headD 0 = 0 := by
    rw [List.range_succ_eq_map, List.map_cons]
    simp [spiralPt]
  have hlast : ((List.range (4 * n + 1)).map
      (fun k => (spiralPt ix iy s k).2)).getLastD 0 = -((n : ℚ) * s) := by
    simp only [getLastD_map_range, spiralPt_S]
  unfold rec_coil_path
  rw [rec_coil_xy_eq]
  simp only [hhead, hlast]
  rw [List.zip_append (by simp)]
  rw [List.zip_map']
  conv_rhs => rw [show 4 * n + 2 = (4 * n + 1) + 1 from rfl, List.range_succ]
  rw [List.map_append]
  refine congrArg₂ _ ?_ ?_
  · refine List.map_congr_left (fun k hk => ?_)
    have hk2 : k ≠ 4 * n + 1 := by
      have := List.mem_range.mp hk
      omega
    simp [pathPt, hk2]
  · simp [pathPt]

/-! ## Geometry of the square spiral: corner values, segment facts -/

theorem pathPt_S (ix iy s h : ℚ) (n a : ℕ) :
    pathPt ix iy s h n (4 * a) = (-((a : ℚ) * s), -((a : ℚ) * s)) := by
  have hne : 4 * a ≠ 4 * n + 1 := by omega
  simp [pathPt, hne, spiralPt_S]

theorem pathPt_A (ix iy s h : ℚ) (n a : ℕ) (ha : a ≠ n) :
    pathPt ix iy s h n (4 * a + 1) = (ix + (a : ℚ) * s, -((a : ℚ) * s)) := by
  have hne : 4 * a + 1 ≠ 4 * n + 1 := by omega
  simp [pathPt, hne, spiralPt_A]

theorem pathPt_B (ix iy s h : ℚ) (n a : ℕ) :
    pathPt ix iy s h n (4 * a + 2) = (ix + (a : ℚ) * s, iy + (a : ℚ) * s) := by
  have hne : 4 * a + 2 ≠ 4 * n + 1 := by omega
  simp [pathPt, hne, spiralPt_B]

theorem pathPt_C (ix iy s h : ℚ) (n a : ℕ) :
    pathPt ix iy s h n (4 * a + 3) = (-(((a : ℚ) + 1) * s), iy + (a : ℚ) * s) := by
  have hne : 4 * a + 3 ≠ 4 * n + 1 := by omega
  simp [pathPt, hne, spiralPt_C]

theorem pathPt_close (ix iy s h : ℚ) (n : ℕ) :
    pathPt ix iy s h n (4 * n + 1) = (h, -((n : ℚ) * s)) := by
  simp [pathPt]

/-- Facts about a point on the rightward segment of turn `a`
(`p` between the turn start and its first corner). -/
theorem onSeg_facts_R (ix iy s h : ℚ) (n a : ℕ) (hs : 0 < s) (hix : 0 < ix)
    (han : a < n) (p : ℚ × ℚ)
    (hp : onSeg (pathPt ix iy s h n (4 * a)) (pathPt ix iy s h n (4 * a + 1)) p) :
    p.2 = -((a : ℚ) * s) ∧ -((a : ℚ) * s) ≤ p.1 ∧ p.1 ≤ ix + (a : ℚ) * s := by
  rw [pathPt_S, pathPt_A ix iy s h n a (by omega)] at hp
  obtain ⟨t, ht0, ht1, hx, hy⟩ := hp
  simp only at hx hy
  have has : (0 : ℚ) ≤ (a : ℚ) * s := mul_nonneg (Nat.cast_nonneg a) hs.le
  refine ⟨by rw [hy]; ring, ?_, ?_⟩
  · rw [hx]; nlinarith
  · rw [hx]; nlinarith

/-- Facts about a point on the upward segment of turn `a`. -/
theorem onSeg_facts_U (ix iy s h : ℚ) (n a : ℕ) (hs : 0 < s) (hiy : 0 < iy)
    (han : a < n) (p : ℚ × ℚ)
    (hp : onSeg (pathPt ix iy s h n (4 * a + 1)) (pathPt ix iy s h n (4 * a + 2)) p) :
    p.1 = ix + (a : ℚ) * s ∧ -((a : ℚ) * s) ≤ p.2 ∧ p.2 ≤ iy + (a : ℚ) * s := by
  rw [pathPt_A ix iy s h n a (by omega), pathPt_B] at hp
  obtain ⟨t, ht0, ht1, hx, hy⟩ := hp
  simp only at hx hy
  have has : (0 : ℚ) ≤ (a : ℚ) * s := mul_nonneg (Nat.cast_nonneg a) hs.le
  refine ⟨by rw [hx]; ring, ?_, ?_⟩
  · rw [hy]; nlinarith
  · rw [hy]; nlinarith

/-- Facts about a point on the leftward segment of turn `a`. -/
theorem onSeg_facts_L (ix iy s h : ℚ) (n a : ℕ) (hs : 0 < s) (hix : 0 < ix)
    (_han : a < n) (p : ℚ × ℚ)
    (hp : onSeg (pathPt ix iy s h n (4 * a + 2)) (pathPt ix iy s h n (4 * a + 3)) p) :
    p.2 = iy + (a : ℚ) * s ∧ -(((a : ℚ) + 1) * s) ≤ p.1 ∧ p.1 ≤ ix + (a : ℚ) * s := by
  rw [pathPt_B, pathPt_C] at hp
  obtain ⟨t, ht0, ht1, hx, hy⟩ := hp
  simp only at hx hy
  have has : (0 : ℚ) ≤ (a : ℚ) * s := mul_nonneg (Nat.cast_nonneg a) hs.le
  refine ⟨by rw [hy]; ring, ?_, ?_⟩
  · rw [hx]; nlinarith
  · rw [hx]; nlinarith

/-- Facts about a point on the downward segment of turn `a`. -/
theorem onSeg_facts_D (ix iy s h : ℚ) (n a : ℕ) (hs : 0 < s) (hiy : 0 < iy)
    (_han : a < n) (p : ℚ × ℚ)
    (hp : onSeg (pathPt ix iy s h n (4 * a + 3)) (pathPt ix iy s h n (4 * a + 4)) p) :
    p.1 = -(((a : ℚ) + 1) * s) ∧ -(((a : ℚ) + 1) * s) ≤ p.2 ∧ p.2 ≤ iy + (a : ℚ) * s := by
  have h4 : 4 * a + 4 = 4 * (a + 1) := by omega
  rw [pathPt_C, h4, pathPt_S] at hp
  obtain ⟨t, ht0, ht1, hx, hy⟩ := hp
  simp only at hx hy
  have has : (0 : ℚ) ≤ (a : ℚ) * s := mul_nonneg (Nat.cast_nonneg a) hs.le
  have hcast : ((a + 1 : ℕ) : ℚ) = (a : ℚ) + 1 := by push_cast; ring
  rw [hcast] at hx hy
  refine ⟨by rw [hx]; ring, ?_, ?_⟩
  · rw [hy]; nlinarith
  · rw [hy]; nlinarith

/-- Facts about a point on the closing segment (offsetting the wire
thickness), which runs from the spiral end to `(h, -(n*s))`. -/
theorem onSeg_facts_close (ix iy s h : ℚ) (n : ℕ) (hs : 0 < s) (hh : 0 < h)
    (p : ℚ × ℚ)
    (hp : onSeg (pathPt ix iy s h n (4 * n)) (pathPt ix iy s h n (4 * n + 1)) p) :
    p.2 = -((n : ℚ) * s) ∧ -((n : ℚ) * s) ≤ p.1 ∧ p.1 ≤ h := by
  rw [pathPt_S, pathPt_close] at hp
  obtain ⟨t, ht0, ht1, hx, hy⟩ := hp
  simp only at hx hy
  have hns : (0 : ℚ) ≤ (n : ℚ) * s := mul_nonneg (Nat.cast_nonneg n) hs.le
  refine ⟨by rw [hy]; ring, ?_, ?_⟩
  · rw [hx]; nlinarith
  · rw [hx]; nlinarith

theorem natCast_mul_lt {a c : ℕ} (s : ℚ) (hs : 0 < s) (hac : a < c) :
    (a : ℚ) * s < (c : ℚ) * s := by
  have h1 : (a : ℚ) < (c : ℚ) := by exact_mod_cast hac
  nlinarith

/-- No two non-adjacent segments of the rectangular-coil polyline meet: the
square spiral together with its closing segment is a simple polyline. -/
theorem rec_path_no_overlap (ix iy s h : ℚ) (n : ℕ)
    (hs : 0 < s) (hix : 0 < ix) (hiy : 0 < iy) (hh : 0 < h) (hhix : h < ix)
    (k l : ℕ) (hkl : k + 2 ≤ l) (hl : l ≤ 4 * n) (p : ℚ × ℚ)
    (hp1 : onSeg (pathPt ix iy s h n k) (pathPt ix iy s h n (k + 1)) p)
    (hp2 : onSeg (pathPt ix iy s h n l) (pathPt ix iy s h n (l + 1)) p) :
    False := by
  obtain ⟨a, b, hb, hk⟩ : ∃ a b, b < 4 ∧ k = 4 * a + b :=
    ⟨k / 4, k % 4, Nat.mod_lt _ (by norm_num), (Nat.div_add_mod k 4).symm⟩
  subst hk
  by_cases hcl : l = 4 * n
  · subst hcl
    have hfc := onSeg_facts_close ix iy s h n hs hh p hp2
    have hns : (0 : ℚ) ≤ (n : ℚ) * s := mul_nonneg (Nat.cast_nonneg n) hs.le
    interval_cases b
    · -- rightward segment of turn a against the closing segment
      have hf1 := onSeg_facts_R ix iy s h n a hs hix (by omega) p hp1
      have hlt := natCast_mul_lt s hs (show a < n by omega)
      linarith [hf1.1, hfc.1]
    · -- upward segment: its x-line exceeds the closing segment's reach
      have hf1 := onSeg_facts_U ix iy s h n a hs hiy (by omega) p hp1
      have has : (0 : ℚ) ≤ (a : ℚ) * s := mul_nonneg (Nat.cast_nonneg a) hs.le
      linarith [hf1.1, hfc.2.2]
    · -- leftward segment: its y-line is positive, the closing one is not
      have hf1 := onSeg_facts_L ix iy s h n a hs hix (by omega) p hp1
      have has : (0 : ℚ) ≤ (a : ℚ) * s := mul_nonneg (Nat.cast_nonneg a) hs.le
      linarith [hf1.1, hfc.1]
    · -- downward segment of turn a ≤ n - 2 stays above the closing line
      have hf1 := onSeg_facts_D ix iy s h n a hs hiy (by omega) p hp1
      have hlt := natCast_mul_lt s hs (show a + 1 < n by omega)
      have hc : ((a + 1 : ℕ) : ℚ) * s = ((a : ℚ) + 1) * s := by push_cast; ring
      rw [hc] at hlt
      linarith [hf1.2.1, hfc.1]
  · have hln : l < 4 * n := by omega
    obtain ⟨c, d, hd, hlcd⟩ : ∃ c d, d < 4 ∧ l = 4 * c + d :=
      ⟨l / 4, l % 4, Nat.mod_lt _ (by norm_num), (Nat.div_add_mod l 4).symm⟩
    subst hlcd
    have has : (0 : ℚ) ≤ (a : ℚ) * s := mul_nonneg (Nat.cast_nonneg a) hs.le
    have hcs : (0 : ℚ) ≤ (c : ℚ) * s := mul_nonneg (Nat.cast_nonneg c) hs.le
    interval_cases b <;> interval_cases d
    · -- R a, R c: distinct horizontal lines
      have hf1 := onSeg_facts_R ix iy s h n a hs hix (by omega) p hp1
      have hf2 := onSeg_facts_R ix iy s h n c hs hix (by omega) p hp2
      have hlt := natCast_mul_lt s hs (show a < c by omega)
      linarith [hf1.1, hf2.1]
    · -- R a, U c
      have hf1 := onSeg_facts_R ix iy s h n a hs hix (by omega) p hp1
      have hf2 := onSeg_facts_U ix iy s h n c hs hiy (by omega) p hp2
      have hlt := natCast_mul_lt s hs (show a < c by omega)
      linarith [hf1.2.2, hf2.1]
    · -- R a, L c: opposite-sign horizontal lines
      have hf1 := onSeg_facts_R ix iy s h n a hs hix (by omega) p hp1
      have hf2 := onSeg_facts_L ix iy s h n c hs hix (by omega) p hp2
      linarith [hf1.1, hf2.1]
    · -- R a, D c
      have hf1 := onSeg_facts_R ix iy s h n a hs hix (by omega) p hp1
      have hf2 := onSeg_facts_D ix iy s h n c hs hiy (by omega) p hp2
      have hle : (a : ℚ) * s ≤ (c : ℚ) * s := by
        have hac : (a : ℚ) ≤ (c : ℚ) := by exact_mod_cast (show a ≤ c by omega)
        nlinarith
      linarith [hf1.2.1, hf2.1, hle, hs]
    · -- U a, R c
      have hf1 := onSeg_facts_U ix iy s h n a hs hiy (by omega) p hp1
      have hf2 := onSeg_facts_R ix iy s h n c hs hix (by omega) p hp2
      have hlt := natCast_mul_lt s hs (show a < c by omega)
      linarith [hf1.2.1, hf2.1]
    · -- U a, U c
      have hf1 := onSeg_facts_U ix iy s h n a hs hiy (by omega) p hp1
      have hf2 := onSeg_facts_U ix iy s h n c hs hiy (by omega) p hp2
      have hlt := natCast_mul_lt s hs (show a < c by omega)
      linarith [hf1.1, hf2.1]
    · -- U a, L c
      have hf1 := onSeg_facts_U ix iy s h n a hs hiy (by omega) p hp1
      have hf2 := onSeg_facts_L ix iy s h n c hs hix (by omega) p hp2
      have hlt := natCast_mul_lt s hs (show a < c by omega)
      linarith [hf1.2.2, hf2.1]
    · -- U a, D c: positive x-line against negative x-line
      have hf1 := onSeg_facts_U ix iy s h n a hs hiy (by omega) p hp1
      have hf2 := onSeg_facts_D ix iy s h n c hs hiy (by omega) p hp2
      nlinarith [hf1.1, hf2.1, hcs, hs, has]
    · -- L a, R c
      have hf1 := onSeg_facts_L ix iy s h n a hs hix (by omega) p hp1
      have hf2 := onSeg_facts_R ix iy s h n c hs hix (by omega) p hp2
      linarith [hf1.1, hf2.1]
    · -- L a, U c
      have hf1 := onSeg_facts_L ix iy s h n a hs hix (by omega) p hp1
      have hf2 := onSeg_facts_U ix iy s h n c hs hiy (by omega) p hp2
      have hlt := natCast_mul_lt s hs (show a < c by omega)
      linarith [hf1.2.2, hf2.1]
    · -- L a, L c
      have hf1 := onSeg_facts_L ix iy s h n a hs hix (by omega) p hp1
      have hf2 := onSeg_facts_L ix iy s h n c hs hix (by omega) p hp2
      have hlt := natCast_mul_lt s hs (show a < c by omega)
      linarith [hf1.1, hf2.1]
    · -- L a, D c
      have hf1 := onSeg_facts_L ix iy s h n a hs hix (by omega) p hp1
      have hf2 := onSeg_facts_D ix iy s h n c hs hiy (by omega) p hp2
      have hlt := natCast_mul_lt s hs (show a + 1 < c + 1 by omega)
      have hc1 : ((a + 1 : ℕ) : ℚ) * s = ((a : ℚ) + 1) * s := by push_cast; ring
      have hc2 : ((c + 1 : ℕ) : ℚ) * s = ((c : ℚ) + 1) * s := by push_cast; ring
      rw [hc1, hc2] at hlt
      linarith [hf1.2.1, hf2.1]
    · -- D a, R c
      have hf1 := onSeg_facts_D ix iy s h n a hs hiy (by omega) p hp1
      have hf2 := onSeg_facts_R ix iy s h n c hs hix (by omega) p hp2
      have hlt := natCast_mul_lt s hs (show a + 1 < c by omega)
      have hc1 : ((a + 1 : ℕ) : ℚ) * s = ((a : ℚ) + 1) * s := by push_cast; ring
      rw [hc1] at hlt
      linarith [hf1.2.1, hf2.1]
    · -- D a, U c: negative x-line against positive x-line
      have hf1 := onSeg_facts_D ix iy s h n a hs hiy (by omega) p hp1
      have hf2 := onSeg_facts_U ix iy s h n c hs hiy (by omega) p hp2
      nlinarith [hf1.1, hf2.1, has, hcs, hs]
    · -- D a, L c
      have hf1 := onSeg_facts_D ix iy s h n a hs hiy (by omega) p hp1
      have hf2 := onSeg_facts_L ix iy s h n c hs hix (by omega) p hp2
      have hlt := natCast_mul_lt s hs (show a < c by omega)
      linarith [hf1.2.2, hf2.1]
    · -- D a, D c
      have hf1 := onSeg_facts_D ix iy s h n a hs hiy (by omega) p hp1
      have hf2 := onSeg_facts_D ix iy s h n c hs hiy (by omega) p hp2
      have hlt := natCast_mul_lt s hs (show a + 1 < c + 1 by omega)
      have hc1 : ((a + 1 : ℕ) : ℚ) * s = ((a : ℚ) + 1) * s := by push_cast; ring
      have hc2 : ((c + 1 : ℕ) : ℚ) * s = ((c : ℚ) + 1) * s := by push_cast; ring
      rw [hc1, hc2] at hlt
      linarith [hf1.1, hf2.1]

/-! ## Segment lengths of the square spiral -/

theorem segLen_R (ix iy s h : ℚ) (n a : ℕ) (hs : 0 < s) (hix : 0 < ix)
    (han : a < n) :
    segLen (pathPt ix iy s h n) (4 * a) = ix + 2 * (a : ℚ) * s := by
  have has : (0 : ℚ) ≤ (a : ℚ) * s := mul_nonneg (Nat.cast_nonneg a) hs.le
  unfold segLen
  rw [pathPt_A ix iy s h n a (by omega), pathPt_S]
  simp only
  rw [show (ix + (a : ℚ) * s) - -((a : ℚ) * s) = ix + 2 * (a : ℚ) * s by ring,
      show -((a : ℚ) * s) - -((a : ℚ) * s) = (0 : ℚ) by ring,
      abs_zero, add_zero, abs_of_pos (by linarith)]

theorem segLen_U (ix iy s h : ℚ) (n a : ℕ) (hs : 0 < s) (hiy : 0 < iy)
    (han : a < n) :
    segLen (pathPt ix iy s h n) (4 * a + 1) = iy + 2 * (a : ℚ) * s := by
  have has : (0 : ℚ) ≤ (a : ℚ) * s := mul_nonneg (Nat.cast_nonneg a) hs.le
  unfold segLen
  rw [show 4 * a + 1 + 1 = 4 * a + 2 from rfl, pathPt_B,
      pathPt_A ix iy s h n a (by omega)]
  simp only
  rw [show (ix + (a : ℚ) * s) - (ix + (a : ℚ) * s) = (0 : ℚ) by ring,
      show (iy + (a : ℚ) * s) - -((a : ℚ) * s) = iy + 2 * (a : ℚ) * s by ring,
      abs_zero, zero_add, abs_of_pos (by linarith)]

theorem segLen_L (ix iy s h : ℚ) (n a : ℕ) (hs : 0 < s) (hix : 0 < ix)
    (_han : a < n) :
    segLen (pathPt ix iy s h n) (4 * a + 2) = ix + (2 * (a : ℚ) + 1) * s := by
  have has : (0 : ℚ) ≤ (a : ℚ) * s := mul_nonneg (Nat.cast_nonneg a) hs.le
  unfold segLen
  rw [show 4 * a + 2 + 1 = 4 * a + 3 from rfl, pathPt_C, pathPt_B]
  simp only
  rw [show -(((a : ℚ) + 1) * s) - (ix + (a : ℚ) * s)
        = -(ix + (2 * (a : ℚ) + 1) * s) by ring,
      show (iy + (a : ℚ) * s) - (iy + (a : ℚ) * s) = (0 : ℚ) by ring,
      abs_zero, add_zero, abs_neg, abs_of_pos (by linarith)]

theorem segLen_D (ix iy s h : ℚ) (n a : ℕ) (hs : 0 < s) (hiy : 0 < iy)
    (_han : a < n) :
    segLen (pathPt ix iy s h n) (4 * a + 3) = iy + (2 * (a : ℚ) + 1) * s := by
  have has : (0 : ℚ) ≤ (a : ℚ) * s := mul_nonneg (Nat.cast_nonneg a) hs.le
  unfold segLen
  rw [show 4 * a + 3 + 1 = 4 * (a + 1) from by omega, pathPt_S, pathPt_C]
  simp only
  rw [show -(((a + 1 : ℕ) : ℚ) * s) - -(((a : ℚ) + 1) * s) = (0 : ℚ) by
        push_cast; ring,
      show -(((a + 1 : ℕ) : ℚ) * s) - (iy + (a : ℚ) * s)
        = -(iy + (2 * (a : ℚ) + 1) * s) by push_cast; ring,
      abs_zero, zero_add, abs_neg, abs_of_pos (by linarith)]

/-- Strict outward growth of the square spiral: each spiral segment is exactly
`step_size` longer than the segment two positions before it. -/
theorem rec_path_growth (ix iy s h : ℚ) (n : ℕ) (hs : 0 < s) (hix : 0 < ix)
    (hiy : 0 < iy) (k : ℕ) (hk : k + 2 < 4 * n) :
    segLen (pathPt ix iy s h n) (k + 2) = segLen (pathPt ix iy s h n) k + s := by
  obtain ⟨a, b, hb, hkk⟩ : ∃ a b, b < 4 ∧ k = 4 * a + b :=
    ⟨k / 4, k % 4, Nat.mod_lt _ (by norm_num), (Nat.div_add_mod k 4).symm⟩
  subst hkk
  interval_cases b
  · rw [show 4 * a + 0 + 2 = 4 * a + 2 from rfl,
        segLen_L ix iy s h n a hs hix (by omega),
        show (4 * a + 0 : ℕ) = 4 * a from rfl,
        segLen_R ix iy s h n a hs hix (by omega)]
    ring
  · rw [show 4 * a + 1 + 2 = 4 * a + 3 from rfl,
        segLen_D ix iy s h n a hs hiy (by omega),
        segLen_U ix iy s h n a hs hiy (by omega)]
    ring
  · rw [show 4 * a + 2 + 2 = 4 * (a + 1) from by omega,
        segLen_R ix iy s h n (a + 1) hs hix (by omega),
        segLen_L ix iy s h n a hs hix (by omega)]
    push_cast
    ring
  · rw [show 4 * a + 3 + 2 = 4 * (a + 1) + 1 from by omega,
        segLen_U ix iy s h n (a + 1) hs hiy (by omega),
        segLen_D ix iy s h n a hs hiy (by omega)]
    push_cast
    ring

/-! ## Claim C4: the rectangular coil path generator -/

/-- Evaluation of `create_rectangle_coil` on a fresh initialized session when
the `step_size > wire_width` guard passes. -/
theorem create_rectangle_coil_fresh (n : ℕ) (st wh ww ix iy : ℚ)
    (hguard : ww < st) :
    create_rectangle_coil (simulation_ready "Transient") "RecCoil" n st wh ww ix iy
      = ({ simulation_ready "Transient" with coil_names := ["RecCoil"] },
         .ok (rec_coil_path ix iy st wh n)) := by
  simp [create_rectangle_coil, simulation_ready, simInit, not_le.mpr hguard]

/-- **C4, counterexample.**  The claim quantifies over every
`step_size > wire_width`; at `num_turns = 1`, `wire_width = -1`,
`step_size = -1/2` (remaining parameters at their defaults) the guard passes
and the generator succeeds, yet the spiral does not grow monotonically
outward: the third segment is strictly shorter than the first, so the
claimed strict outward growth fails. -/
theorem C4_counterexample :
    (-1 : ℚ) < -(1/2) ∧
    (create_rectangle_coil (simulation_ready "Transient") "RecCoil" 1 (-(1/2))
        (7/200) (-1) 1 1).2
      = .ok ((List.range 6).map (pathPt 1 1 (-(1/2)) (7/200) 1)) ∧
    segLen (pathPt 1 1 (-(1/2)) (7/200) 1) 2
      < segLen (pathPt 1 1 (-(1/2)) (7/200) 1) 0 := by
  refine ⟨by norm_num, ?_, ?_⟩
  · rw [create_rectangle_coil_fresh 1 (-(1/2)) (7/200) (-1) 1 1 (by norm_num)]
    rw [rec_coil_path_eq]
  · norm_num [segLen, pathPt, spiralPt]
    rw [abs_of_pos (show (0 : ℚ) < 1/2 by norm_num)]
    norm_num

/-- **C4 (amended).**  For every `num_turns ≥ 1` and
`step_size > wire_width ≥ 0` (remaining parameters at their defaults:
`wire_height = 0.035`, `initial_x_length = initial_y_length = 1`), on a fresh
session `create_rectangle_coil` succeeds and returns the polyline with
`4*num_turns + 2` vertices, i.e. `4*num_turns + 1` segments including the
short closing segment offsetting the wire thickness; each spiral segment is
exactly `step_size` longer than the segment two before it (strict outward
growth); no two non-adjacent segments share a point; and when
`step_size ≤ wire_width` the call raises the invalid-parameter `ValueError`
instead. -/
theorem C4_rect_coil_amended (n : ℕ) (step_size wire_width : ℚ)
    (hn : 1 ≤ n) (hw : 0 ≤ wire_width) (hws : wire_width < step_size) :
    ((create_rectangle_coil (simulation_ready "Transient") "RecCoil" n step_size
        (7/200) wire_width 1 1).2
      = .ok ((List.range (4 * n + 2)).map (pathPt 1 1 step_size (7/200) n))) ∧
    ((List.range (4 * n + 2)).map (pathPt 1 1 step_size (7/200) n)).length
      = (4 * n + 1) + 1 ∧
    (∀ k, k + 2 < 4 * n →
      segLen (pathPt 1 1 step_size (7/200) n) (k + 2)
        = segLen (pathPt 1 1 step_size (7/200) n) k + step_size) ∧
    (∀ k, k + 2 < 4 * n →
      segLen (pathPt 1 1 step_size (7/200) n) k
        < segLen (pathPt 1 1 step_size (7/200) n) (k + 2)) ∧
    (∀ k l p, k + 2 ≤ l → l ≤ 4 * n →
      onSeg (pathPt 1 1 step_size (7/200) n k)
        (pathPt 1 1 step_size (7/200) n (k + 1)) p →
      onSeg (pathPt 1 1 step_size (7/200) n l)
        (pathPt 1 1 step_size (7/200) n (l + 1)) p →
      False) ∧
    (∀ st ww : ℚ, st ≤ ww →
      (create_rectangle_coil (simulation_ready "Transient") "RecCoil" n st
          (7/200) ww 1 1).2
        = .error (.valueErr "The step size must be greater than the wire width.")) := by
  have hs : 0 < step_size := lt_of_le_of_lt hw hws
  refine ⟨?_, ?_, ?_, ?_, ?_, ?_⟩
  · rw [create_rectangle_coil_fresh n step_size (7/200) wire_width 1 1 hws,
      rec_coil_path_eq]
  · simp
  · exact fun k hk =>
      rec_path_growth 1 1 step_size (7/200) n hs (by norm_num) (by norm_num) k hk
  · intro k hk
    rw [rec_path_growth 1 1 step_size (7/200) n hs (by norm_num) (by norm_num) k hk]
    linarith
  · exact fun k l p hkl hl h1 h2 =>
      rec_path_no_overlap 1 1 step_size (7/200) n hs (by norm_num) (by norm_num)
        (by norm_num) (by norm_num) k l hkl hl p h1 h2
  · intro st ww hst
    simp [create_rectangle_coil, simulation_ready, simInit, hst]

/-- Witness for C4 at `num_turns = 1`, `step_size = 1/4`,
`wire_width = 1/8`. -/
theorem C4_rect_coil_amended_witness :
    (1 : ℕ) ≤ 1 ∧ (0 : ℚ) ≤ 1/8 ∧ (1/8 : ℚ) < 1/4 ∧
    (create_rectangle_coil (simulation_ready "Transient") "RecCoil" 1 (1/4)
        (7/200) (1/8) 1 1).2
      = .ok ((List.range 6).map (pathPt 1 1 (1/4) (7/200) 1)) :=
  ⟨le_refl 1, by norm_num, by norm_num,
    (C4_rect_coil_amended 1 (1/4) (1/8) (le_refl 1) (by norm_num) (by norm_num)).1⟩

/-! ## Claim C5: the circular (Archimedean) spiral generator -/

/-- Evaluation of `create_spiral_coil` on a fresh initialized session when the
`spacing > wire_width` guard passes. -/
theorem create_spiral_coil_fresh (n : ℕ) (ww sp inner : ℚ) (hguard : ww < sp) :
    create_spiral_coil (simulation_ready "EddyCurrent") "SpirCoil" n ww sp inner
      = ({ simulation_ready "EddyCurrent" with coil_names := ["SpirCoil"] },
         .ok ((List.range (50 * n)).map
            (fun k => (spiral_theta_over_pi n k, spiral_radius inner sp n k)))) := by
  simp [create_spiral_coil, simulation_ready, simInit, not_le.mpr hguard]

/-- **C5, counterexample.**  The claim quantifies over every
`spacing > wire_width`; at `num_turns = 1`, `wire_width = -1`,
`spacing = -1/2`, `inner = 1` the guard passes and the generator succeeds,
yet the radius is strictly decreasing in θ — already the second sample lies
strictly below `radius(0)` — so the claimed monotone non-decrease fails. -/
theorem C5_counterexample :
    (-1 : ℚ) < -(1/2) ∧
    (create_spiral_coil (simulation_ready "EddyCurrent") "SpirCoil" 1 (-1)
        (-(1/2)) 1).2
      = .ok ((List.range 50).map
          (fun k => (spiral_theta_over_pi 1 k, spiral_radius 1 (-(1/2)) 1 k))) ∧
    spiral_radius 1 (-(1/2)) 1 1 < spiral_radius 1 (-(1/2)) 1 0 := by
  refine ⟨by norm_num, ?_, ?_⟩
  · rw [create_spiral_coil_fresh 1 (-1) (-(1/2)) 1 (by norm_num)]
  · norm_num [spiral_radius, spiral_theta_over_pi]

/-- **C5 (amended).**  For every `num_turns ≥ 1` and
`spacing > wire_width ≥ 0`, on a fresh session `create_spiral_coil` succeeds
and samples `50 * num_turns` points; the angle grid starts at `0`, ends at
`2π·num_turns` and is uniform (recorded in units of `π`); every sample lies at
distance `inner + spacing·θ/(2π)` from the center; the radius is monotonically
non-decreasing in θ with `radius(0) = inner`; and when
`spacing ≤ wire_width` the call raises the invalid-parameter `ValueError`
instead. -/
theorem C5_spiral_amended (n : ℕ) (spacing wire_width inner : ℚ)
    (hn : 1 ≤ n) (hw : 0 ≤ wire_width) (hws : wire_width < spacing)
    (hinner : 0 < inner) :
    ((create_spiral_coil (simulation_ready "EddyCurrent") "SpirCoil" n
        wire_width spacing inner).2
      = .ok ((List.range (50 * n)).map
          (fun k => (spiral_theta_over_pi n k, spiral_radius inner spacing n k)))) ∧
    ((List.range (50 * n)).map
        (fun k => (spiral_theta_over_pi n k, spiral_radius inner spacing n k))).length
      = 50 * n ∧
    spiral_theta_over_pi n 0 = 0 ∧
    spiral_theta_over_pi n (50 * n - 1) = 2 * n ∧
    (∀ k, spiral_theta_over_pi n (k + 1) - spiral_theta_over_pi n k
        = 2 * n / (50 * (n : ℚ) - 1)) ∧
    spiral_radius inner spacing n 0 = inner ∧
    (∀ k, spiral_radius inner spacing n k ≤ spiral_radius inner spacing n (k + 1)) ∧
    (∀ k, Real.sqrt
        (((spiral_radius inner spacing n k : ℝ)
            * Real.cos (Real.pi * (spiral_theta_over_pi n k : ℝ))) ^ 2
          + ((spiral_radius inner spacing n k : ℝ)
            * Real.sin (Real.pi * (spiral_theta_over_pi n k : ℝ))) ^ 2)
        = (spiral_radius inner spacing n k : ℝ)) ∧
    (∀ sp ww : ℚ, sp ≤ ww →
      (create_spiral_coil (simulation_ready "EddyCurrent") "SpirCoil" n ww sp
          inner).2
        = .error (.valueErr "The spacing must be greater than the wire width.")) := by
  have hsp : 0 < spacing := lt_of_le_of_lt hw hws
  have hn1 : (1 : ℚ) ≤ (n : ℚ) := by exact_mod_cast hn
  have hden : (0 : ℚ) < 50 * (n : ℚ) - 1 := by linarith
  have hcoeff : ∀ k : ℕ, (0 : ℚ) ≤ spiral_theta_over_pi n k := by
    intro k
    unfold spiral_theta_over_pi
    positivity
  have hrad : ∀ k : ℕ, (0 : ℚ) < spiral_radius inner spacing n k := by
    intro k
    unfold spiral_radius
    have := hcoeff k
    nlinarith
  refine ⟨?_, ?_, ?_, ?_, ?_, ?_, ?_, ?_, ?_⟩
  · rw [create_spiral_coil_fresh n wire_width spacing inner hws]
  · simp
  · simp [spiral_theta_over_pi]
  · unfold spiral_theta_over_pi
    have hc : ((50 * n - 1 : ℕ) : ℚ) = 50 * (n : ℚ) - 1 := by
      have : 1 ≤ 50 * n := by omega
      push_cast [this]
      ring
    rw [hc]
    field_simp
  · intro k
    unfold spiral_theta_over_pi
    field_simp
    ring
  · simp [spiral_radius, spiral_theta_over_pi]
  · intro k
    have h1 : spiral_theta_over_pi n k ≤ spiral_theta_over_pi n (k + 1) := by
      unfold spiral_theta_over_pi
      refine (div_le_div_iff_of_pos_right hden).mpr ?_
      push_cast
      nlinarith [Nat.cast_nonneg (α := ℚ) k]
    have h2 := mul_le_mul_of_nonneg_left h1 hsp.le
    unfold spiral_radius
    linarith
  · intro k
    have hr : (0 : ℝ) ≤ ((spiral_radius inner spacing n k : ℚ) : ℝ) := by
      exact_mod_cast (hrad k).le
    have htrig : (((spiral_radius inner spacing n k : ℚ) : ℝ)
          * Real.cos (Real.pi * (spiral_theta_over_pi n k : ℝ))) ^ 2
          + (((spiral_radius inner spacing n k : ℚ) : ℝ)
          * Real.sin (Real.pi * (spiral_theta_over_pi n k : ℝ))) ^ 2
        = ((spiral_radius inner spacing n k : ℚ) : ℝ) ^ 2 := by
      have hsc := Real.sin_sq_add_cos_sq
        (Real.pi * (spiral_theta_over_pi n k : ℝ))
      nlinarith [hsc]
    rw [htrig, Real.sqrt_sq hr]
  · intro sp ww hsw
    simp [create_spiral_coil, simulation_ready, simInit, hsw]

/-- Witness for C5 at `num_turns = 1`, `spacing = 1/4`, `wire_width = 1/8`,
`inner = 1`. -/
theorem C5_spiral_amended_witness :
    (1 : ℕ) ≤ 1 ∧ (0 : ℚ) ≤ 1/8 ∧ (1/8 : ℚ) < 1/4 ∧ (0 : ℚ) < 1 ∧
    (create_spiral_coil (simulation_ready "EddyCurrent") "SpirCoil" 1 (1/8)
        (1/4) 1).2
      = .ok ((List.range 50).map
          (fun k => (spiral_theta_over_pi 1 k, spiral_radius 1 (1/4) 1 k))) :=
  ⟨le_refl 1, by norm_num, by norm_num, by norm_num,
    (C5_spiral_amended 1 (1/4) (1/8) 1 (le_refl 1) (by norm_num) (by norm_num)
      (by norm_num)).1⟩

/-! ## Claims C1–C3, C6–C10: workflow and registry -/


/-- **C1.**  Even though `MyVariable` was declared (first conjunct) and a
region and a setup exist, `optimetrics_setup` raises the not-found
`ValueError` for it: the membership test
`variable_name not in self.sim_init._variable_names` compares the string
against the single-key dicts themselves (never their keys), so it is true for
every string and the sweep is never created. -/
theorem C1_optimetrics_declared_variable_rejected :
    varDeclared optimetricsExampleSim.variable_names "MyVariable" = true ∧
    optimetricsExampleSim.boundary.contains "Region" = true ∧
    (optimetrics_setup optimetricsExampleSim ["MySetup"] "MyVariable").2
      = .error (.valueErr
        "Variable name: 'MyVariable' not found. Please recheck the variable name.") := by
  decide

/-- **C2.**  Redeclaring the project variable `x_move` succeeds instead of
raising the duplicate-name `ValueError`: the duplicate test uses
`all(...)` over the single-key mappings, which can only fire if the name is a
key of every mapping, so it never fires and the mapping ends up holding two
entries named `x_move`. -/
theorem C2_duplicate_variable_accepted :
    ((create_project_variable (simulation_ready "Transient") "x_move" "1.0"
        "mm").2 = .ok true) ∧
    ((create_project_variable
        (create_project_variable (simulation_ready "Transient") "x_move" "1.0"
          "mm").1 "x_move" "1.0" "mm").2 = .ok true) ∧
    (((create_project_variable
        (create_project_variable (simulation_ready "Transient") "x_move" "1.0"
          "mm").1 "x_move" "1.0" "mm").1.variable_names.filter
        (fun d => dictHasKey d "x_move")).length = 2) := by
  decide


/-- **C3.**  A `transient_analysis` call rejected for `stop_time ≤ time_step`
(scenario `stop_time = 1, time_step = 1`) does *not* leave the setup-name
registry unchanged: the source appends `setup_name` before validating the
numeric constraints, so the failed call returns with `MySetup` registered
(first component) although it raised the `ValueError`. -/
theorem C3_failed_transient_mutates_registry :
    transient_analysis transientReadySim [] "MySetup" 1 1 1 0 1
      = (["MySetup"],
         .error (.valueErr "The stop time must be greater than the time step.")) := by
  norm_num [transient_analysis, transientReadySim, region_assign,
    simulation_ready, simInit]


/-- **C6.**  In EddyCurrent mode with a registered coil: a `float` amplitude
derives the literal `"10 V"`/`"10 A"` string and a declared string resolves
to the `$`-reference, an undeclared string raises the not-found error — but
the docstring example's own `amplitude=10, phase=0` (Python `int`s) falls
through every branch of the `type(...) == float / == str` dispatch, so
`amplitude_str` is never assigned and its read raises `UnboundLocalError`
instead of deriving `"10 V"`. -/
theorem C6_int_amplitude_unbound :
    ec_amplitude_str "Voltage" (.float 10) = some (pyFormatFloat 10 ++ " V") ∧
    ec_amplitude_str "Current" (.float 10) = some (pyFormatFloat 10 ++ " A") ∧
    (ec_type_assign_excitation ecCoilSim "SpirCoil" "Voltage" (.str "amp")
        (.float 0)).2
      = .ok (some ("$amp", pyFormatFloat 0 ++ " deg")) ∧
    (ec_type_assign_excitation ecCoilSim "SpirCoil" "Voltage" (.str "nope")
        (.float 0)).2
      = .error (.valueErr
          "variable 'nope' not found. Please recheck the variable name") ∧
    (ec_type_assign_excitation ecCoilSim "SpirCoil" "Voltage" (.int 10)
        (.int 0)).2
      = .error (.unboundLocal "amplitude_str") := by
  refine ⟨rfl, rfl, ?_, ?_, ?_⟩ <;> decide

/-- **C7.**  Under a region-assigned Transient session and a fresh setup
name, `transient_analysis` succeeds exactly when
`stop_time > time_step > 0`, `n_steps > 0` and `0 ≤ steps_from < steps_to`
hold — i.e. it raises the precondition `ValueError` exactly when one of the
numeric constraints is violated. -/
theorem C7_transient_numeric_guard (sim : SimState) (setups : List String)
    (name : String) (stop_time time_step steps_from steps_to : ℚ)
    (n_steps : ℤ)
    (hreg : sim.boundary.contains "Region" = true)
    (hmode : sim.solution_type = "Transient")
    (hfresh : setups.contains name = false) :
    ((transient_analysis sim setups name stop_time time_step n_steps
        steps_from steps_to).2 = .ok true
      ↔ (time_step < stop_time ∧ 0 < time_step ∧ 0 < n_steps ∧
         0 ≤ steps_from ∧ steps_from < steps_to)) := by
  unfold transient_analysis
  rw [hreg, hmode, hfresh]
  norm_num
  split_ifs with h1 h2 h3 h4 h5
  · constructor
    · intro hcon
      exact absurd hcon (by simp)
    · rintro ⟨c1, -, -, -, -⟩
      exact absurd h1 (not_le.mpr c1)
  · constructor
    · intro hcon
      exact absurd hcon (by simp)
    · rintro ⟨-, c2, -, -, -⟩
      exact absurd h2 (not_le.mpr c2)
  · constructor
    · intro hcon
      exact absurd hcon (by simp)
    · rintro ⟨-, -, c3, -, -⟩
      exact absurd h3 (not_le.mpr c3)
  · constructor
    · intro hcon
      exact absurd hcon (by simp)
    · rintro ⟨-, -, -, -, c5⟩
      exact absurd h4 (not_le.mpr c5)
  · constructor
    · intro hcon
      exact absurd hcon (by simp)
    · rintro ⟨-, -, -, c4, -⟩
      exact absurd h5 (not_lt.mpr c4)
  · constructor
    · intro _
      exact ⟨not_le.mp h1, not_le.mp h2, by omega, not_lt.mp h5, not_le.mp h4⟩
    · intro _
      rfl

/-- Witness for C7: scenario 4 of the spec, `stop_time = 1, time_step = 1`,
always fails (the right side of the equivalence is false since `1 < 1`
fails). -/
theorem C7_transient_numeric_guard_witness :
    ((transient_analysis transientReadySim [] "MySetup" 1 1 1 0 1).2 = .ok true
      ↔ ((1 : ℚ) < 1 ∧ (0 : ℚ) < 1 ∧ (0 : ℤ) < 1 ∧ (0 : ℚ) ≤ 0 ∧ (0 : ℚ) < 1)) ∧
    ¬ ((transient_analysis transientReadySim [] "MySetup" 1 1 1 0 1).2
        = .ok true) := by
  have h := C7_transient_numeric_guard transientReadySim [] "MySetup" 1 1 0 1 1
    (by decide) (by decide) (by decide)
  refine ⟨h, fun hc => ?_⟩
  have h2 := h.mp hc
  norm_num at h2

/-- **C8.**  With no region assigned, both setup creators fail with the
precondition `ValueError` for every argument combination; after
`region_assign`, each succeeds in its own solver mode given otherwise-valid
parameters. -/
theorem C8_region_gates_setup (sim : SimState) (setups : List String)
    (name : String) (stop_time time_step steps_from steps_to : ℚ)
    (n_steps : ℤ) (freq : PyArg)
    (hno : sim.boundary.contains "Region" = false) :
    ((transient_analysis sim setups name stop_time time_step n_steps
        steps_from steps_to).2
      = .error (.valueErr "mesh or boundary not assigned, please recheck")) ∧
    ((ec_analysis sim setups name freq).2
      = .error (.valueErr "mesh or boundary not assigned, please recheck")) ∧
    (sim.solution_type = "Transient" → setups.contains name = false →
      (transient_analysis (region_assign sim (.num 100)).1 setups name 1
          (1/10) 1 0 1).2 = .ok true) ∧
    (sim.solution_type = "EddyCurrent" → setups.contains name = false →
      (ec_analysis (region_assign sim (.num 100)).1 setups name
          (.float 1)).2 = .ok true) := by
  have hreg : ((region_assign sim (.num 100)).1).boundary.contains "Region"
      = true := by
    simp [region_assign]
  refine ⟨?_, ?_, ?_, ?_⟩
  · unfold transient_analysis
    rw [hno]
    rfl
  · unfold ec_analysis
    rw [hno]
    rfl
  · intro hmode hfresh
    unfold transient_analysis
    rw [hreg]
    have hmode2 : ((region_assign sim (.num 100)).1).solution_type
        = "Transient" := by simp [region_assign, hmode]
    rw [hmode2, hfresh]
    norm_num
  · intro hmode hfresh
    unfold ec_analysis
    rw [hreg]
    have hmode2 : ((region_assign sim (.num 100)).1).solution_type
        = "EddyCurrent" := by simp [region_assign, hmode]
    rw [hmode2, hfresh]
    norm_num [PyArg.isStr]

/-- Witness for C8 at fresh Transient and EddyCurrent sessions. -/
theorem C8_region_gates_setup_witness :
    ((transient_analysis (simulation_ready "Transient") [] "MySetup" 1 (1/10)
        1 0 1).2
      = .error (.valueErr "mesh or boundary not assigned, please recheck")) ∧
    ((transient_analysis
        (region_assign (simulation_ready "Transient") (.num 100)).1 []
        "MySetup" 1 (1/10) 1 0 1).2 = .ok true) ∧
    ((ec_analysis (simulation_ready "EddyCurrent") [] "MySetup" (.float 1)).2
      = .error (.valueErr "mesh or boundary not assigned, please recheck")) ∧
    ((ec_analysis (region_assign (simulation_ready "EddyCurrent") (.num 100)).1
        [] "MySetup" (.float 1)).2 = .ok true) := by
  have hT := C8_region_gates_setup (simulation_ready "Transient") [] "MySetup"
    1 (1/10) 0 1 1 (.float 1) (by decide)
  have hE := C8_region_gates_setup (simulation_ready "EddyCurrent") []
    "MySetup" 1 (1/10) 0 1 1 (.float 1) (by decide)
  exact ⟨hT.1, hT.2.2.1 rfl (by decide), hE.2.1, hE.2.2.2 rfl (by decide)⟩

/-- **C9.**  `ec_type_assign_excitation` fails with the mode-mismatch
`ValueError` (with unchanged state, before any backend call) whenever the
solver mode is Transient, for every coil name and argument combination; and
symmetrically `transient_type_assign_excitation` fails whenever the mode is
EddyCurrent. -/
theorem C9_mode_mismatch (sim : SimState) (coil excitation_type : String)
    (amplitude phase : PyArg) :
    (sim.solution_type = "Transient" →
      ec_type_assign_excitation sim coil excitation_type amplitude phase
        = (sim, .error (.valueErr
            "Solver type should be 'EddyCurrent', but got 'Transient'."))) ∧
    (sim.solution_type = "EddyCurrent" →
      transient_type_assign_excitation sim coil
        = (sim, .error (.valueErr
            "Solver type should be 'Transient', but got 'EddyCurrent'."))) := by
  constructor
  · intro h
    unfold ec_type_assign_excitation
    rw [h]
    rfl
  · intro h
    unfold transient_type_assign_excitation
    rw [h]
    rfl

/-- Witness for C9 at the two fresh sessions. -/
theorem C9_mode_mismatch_witness :
    (ec_type_assign_excitation (simulation_ready "Transient") "RecCoil"
        "Voltage" (.float 10) (.float 0)
      = (simulation_ready "Transient", .error (.valueErr
          "Solver type should be 'EddyCurrent', but got 'Transient'."))) ∧
    (transient_type_assign_excitation (simulation_ready "EddyCurrent")
        "RecCoil"
      = (simulation_ready "EddyCurrent", .error (.valueErr
          "Solver type should be 'Transient', but got 'EddyCurrent'."))) :=
  ⟨(C9_mode_mismatch (simulation_ready "Transient") "RecCoil" "Voltage"
      (.float 10) (.float 0)).1 rfl,
   (C9_mode_mismatch (simulation_ready "EddyCurrent") "RecCoil" "Voltage"
      (.float 10) (.float 0)).2 rfl⟩


/-- **C10, counterexample.**  The crack counter is a single session-wide
counter, not a per-specimen one: after one crack in `SpecA`, the *first*
crack of `SpecB` is named `SpecB_crack_2`, not `SpecB_crack_1` as the claim
requires. -/
theorem C10_counterexample :
    ((specimen_with_crack twoSpecimenSim "SpecA").2 = .ok "SpecA_crack_1") ∧
    ((specimen_with_crack (specimen_with_crack twoSpecimenSim "SpecA").1
        "SpecB").2 = .ok "SpecB_crack_2") ∧
    "SpecB_crack_2" ≠ "SpecB_crack_1" := by
  decide

/-- **C10 (amended).**  Every crack is subtracted from a pre-existing
specimen (`specimen_with_crack` raises the not-found `ValueError`, leaving
the state unchanged, when the specimen was never created), and the `k`-th
crack added *in the session* — the counter is session-wide across all
specimens, incrementing from 1 — is named `<specimen>_crack_<k>`. -/
theorem C10_crack_naming (s : SimState) (name : String)
    (hm : s.maxwell_init = true) :
    (s.specimen_name.contains name = false →
      specimen_with_crack s name
        = (s, .error (.valueErr ("specimen: '" ++ name ++
            "' not exist, choose existed one.")))) ∧
    (s.specimen_name.contains name = true →
      specimen_with_crack s name
        = ({ s with crack_counter := s.crack_counter + 1 },
           .ok (name ++ "_crack_" ++ toString (s.crack_counter + 1)))) := by
  constructor
  · intro h
    unfold specimen_with_crack
    rw [hm, h]
    rfl
  · intro h
    unfold specimen_with_crack
    rw [hm, h]
    rfl

/-- Witness for C10 on the two-specimen session. -/
theorem C10_crack_naming_witness :
    (specimen_with_crack twoSpecimenSim "SpecGhost"
      = (twoSpecimenSim, .error (.valueErr
          "specimen: 'SpecGhost' not exist, choose existed one."))) ∧
    (specimen_with_crack twoSpecimenSim "SpecA"
      = ({ twoSpecimenSim with crack_counter := 1 }, .ok "SpecA_crack_1")) :=
  ⟨(C10_crack_naming twoSpecimenSim "SpecGhost" (by decide)).1 (by decide),
   (C10_crack_naming twoSpecimenSim "SpecA" (by decide)).2 (by decide)⟩

section SanityChecks

example :
    (create_project_variable (simulation_ready "Transient") "x_move" "1.0" "mm").2
      = .ok true := by decide

example :
    ((region_assign (simulation_ready "Transient") (.num 100)).1).boundary
      = ["Region"] := by decide

-- one turn, ix = iy = 1, s = 1/4, h = 7/200: the six vertices of the polyline
example :
    rec_coil_path 1 1 (1/4) (7/200) 1
      = [(0, 0), (1, 0), (1, 1), (-1/4, 1), (-1/4, -1/4), (7/200, -1/4)] := by
  norm_num [rec_coil_path, rec_coil_xy]

example :
    rec_coil_path 1 1 (1/4) (7/200) 1
      = (List.range 6).map (pathPt 1 1 (1/4) (7/200) 1) := by
  norm_num [rec_coil_path, rec_coil_xy, pathPt, spiralPt, List.range_succ]

example : spiral_radius 1 (1/4) 1 0 = 1 := by
  norm_num [spiral_radius, spiral_theta_over_pi]

end SanityChecks
